import Mathlib

/-!
Verification of the cursor/viewport navigation core of `tori`
(src/main.rs), a terminal file viewer.

The Rust code stores all cursor and scroll offsets as `u16`.  We embed
`u16` values as `Nat` together with explicit wrapping arithmetic
(`wadd`/`wsub`, reduction modulo 2^16) at exactly the spots where the
source performs `u16` addition or subtraction that can over- or
underflow; where the source expression provably cannot leave the `u16`
range for any `u16` inputs (such as `x.max(1) - 1`), plain `Nat`
arithmetic coincides with the machine arithmetic and is used directly.
Wrapping corresponds to Rust release-build semantics (debug builds
panic at the same inputs, which we record where relevant).

Terminal I/O, key decoding and the keymap are external collaborators;
the embedding covers the state and the state transitions
(`FileBuffer`, `Tori`, `dispatch`, `maintain_scroll`,
`move_cursor_x_to_desired`, `update_screen_size`, and the cursor
placement arithmetic of `draw`).
-/

/-- Size of the `u16` value domain, `2 ^ 16`. -/
def W : Nat := 65536

/-- Wrapping `u16` addition (Rust release-build `a + b` on `u16`). -/
def wadd (a b : Nat) : Nat := (a + b) % W

/-- Wrapping `u16` subtraction (Rust release-build `a - b` on `u16`,
for `b ≤ 65536`). -/
def wsub (a b : Nat) : Nat := (a + (W - b)) % W

/-- The in-memory buffer of `tori` (struct `FileBuffer`, src/main.rs
lines 76-93).  `content` is the ordered list of text lines; cursor and
scroll offsets are `u16` in the source and are embedded as `Nat`. -/
structure FileBuffer where
  is_modified : Bool
  path : String
  content : List String
  cursor_x : Nat
  desired_cursor_x : Nat
  cursor_y : Nat
  scroll_x : Nat
  scroll_y : Nat
deriving DecidableEq

/-- Model of `FileBuffer::read_from_path` (lines 97-111): the file-system read
is an external collaborator, so the list of lines it produced is the
parameter; the constructed buffer starts with all cursor and scroll
offsets at zero and `is_modified = false`. -/
def read_from_path (path : String) (lines : List String) : FileBuffer :=
  { is_modified := false
    path := path
    content := lines
    cursor_y := 0
    cursor_x := 0
    desired_cursor_x := 0
    scroll_y := 0
    scroll_x := 0 }

/-- Model of `FileBuffer::line_count` (lines 114-116):
`u16::try_from(len).unwrap_or(u16::MAX)`, i.e. the number of lines
saturated at `65535`. -/
def FileBuffer.line_count (b : FileBuffer) : Nat :=
  min b.content.length 65535

/-- Model of `FileBuffer::max_line_length` (lines 119-123): the number of
decimal digits of `line_count` (`line_count().to_string().len()`);
despite its name it is the gutter width for line numbers. -/
def FileBuffer.max_line_length (b : FileBuffer) : Nat :=
  (Nat.toDigits 10 b.line_count).length

/-- Model of `FileBuffer::line_width` (lines 126-134):
`u16::try_from(content.get(idx).map(|l| l.len()).unwrap_or(0)).unwrap_or(0)`.
Rust `String::len` is the UTF-8 byte length, modelled by
`String.utf8ByteSize` (equal to the character count only for ASCII
lines).  A missing index yields 0 (inner `unwrap_or`), and a byte
length that does not fit in `u16` also yields 0 (outer
`unwrap_or`). -/
def FileBuffer.line_width (b : FileBuffer) (line_idx : Nat) : Nat :=
  let n := ((b.content.get? line_idx).map String.utf8ByteSize).getD 0
  if n ≤ 65535 then n else 0

/-- Model of `Config` (lines 34-43): the vertical scroll lookahead. -/
structure Config where
  lookahead : Nat
deriving DecidableEq

/-- Model of `Config::default` (line 41): lookahead 6. -/
def Config.default : Config := { lookahead := 6 }

/-- Editor state of Tori (struct `Tori`, lines 138-155).  The keymap
field translates terminal key events and is an external collaborator,
not part of the navigation state. -/
structure Tori where
  should_quit : Bool
  config : Config
  buffer : FileBuffer
  columns : Nat
  rows : Nat
  screen_rows : Nat
  screen_columns : Nat
deriving DecidableEq

/-- Model of `Direction` (lines 20-26). -/
inductive Direction where
  | Left
  | Right
  | Up
  | Down
deriving DecidableEq

/-- Model of `ToriEvent` (lines 28-32). -/
inductive ToriEvent where
  | Quit
  | Move (d : Direction)
deriving DecidableEq

/-- Model of `Tori::update_screen_size` (lines 174-177):
`screen_columns = columns - (max_line_length + 1)` and
`screen_rows = rows - 1`, both `u16` subtractions. -/
def Tori.update_screen_size (t : Tori) : Tori :=
  { t with
    screen_columns := wsub t.columns (wadd t.buffer.max_line_length 1)
    screen_rows := wsub t.rows 1 }

/-- Model of `Tori::new` (lines 158-172): the terminal size comes from the
terminal collaborator, so `columns`/`rows` are parameters. -/
def Tori.new (buffer : FileBuffer) (columns rows : Nat) : Tori :=
  Tori.update_screen_size
    { should_quit := false
      columns := columns
      rows := rows
      config := Config.default
      buffer := buffer
      screen_rows := 0
      screen_columns := 0 }

/-- Model of `Tori::move_cursor_x_to_desired` (lines 180-186): two sequential
assignments, net effect
`cursor_x = min(desired_cursor_x, line_width(cursor_y))`. -/
def Tori.move_cursor_x_to_desired (t : Tori) : Tori :=
  { t with buffer := { t.buffer with
      cursor_x := min t.buffer.desired_cursor_x
        (t.buffer.line_width t.buffer.cursor_y) } }

/-- Model of `Tori::maintain_scroll` (lines 189-212).  `cy`, `cx`, `sy`, `sx`
are captured once at entry, so every branch condition reads the
original scroll offsets even after an earlier branch updated the
field, exactly as in the source.  All four `u16` additions and
subtractions are wrapping; in particular `cy - lookahead` underflows
whenever `cy < lookahead`, and
`(cy + lookahead).min(line_count - 1) - screen_rows` underflows when
the minimum is below `screen_rows`.  The `.max(0)` on line 197 is kept
even though it is the identity on unsigned values. -/
def Tori.maintain_scroll (t : Tori) : Tori :=
  let cy := t.buffer.cursor_y
  let cx := t.buffer.cursor_x
  let sy := t.buffer.scroll_y
  let sx := t.buffer.scroll_x
  let la := t.config.lookahead
  let b0 := t.buffer
  let b1 := if wsub cy la < sy
    then { b0 with scroll_y := max (wsub cy la) 0 }
    else b0
  let sy2 := wsub (min (wadd cy la) (wsub t.buffer.line_count 1)) t.screen_rows
  let b2 := if wadd cy la ≥ wadd sy t.screen_rows
    then { b1 with scroll_y := sy2 }
    else b1
  let b3 := if cx < sx then { b2 with scroll_x := cx } else b2
  let b4 := if cx ≥ wadd sx t.screen_columns
    then { b3 with scroll_x := wadd (wsub cx t.screen_columns) 1 }
    else b3
  { t with buffer := b4 }

/-- The `Move(Up)` branch of `Tori::dispatch` (lines 218-222):
`cursor_y = cursor_y.max(1) - 1` (which cannot underflow in `u16`),
then reprojection of `cursor_x`, then scroll maintenance. -/
def Tori.moveUp (t : Tori) : Tori :=
  Tori.maintain_scroll <| Tori.move_cursor_x_to_desired <|
    { t with buffer := { t.buffer with
        cursor_y := max t.buffer.cursor_y 1 - 1 } }

/-- The `Move(Down)` branch of `Tori::dispatch` (lines 223-227):
`cursor_y = (cursor_y + 1).min(line_count() - 1)` with wrapping `u16`
arithmetic (`line_count() - 1` underflows on a 0-line buffer), then
reprojection, then scroll maintenance. -/
def Tori.moveDown (t : Tori) : Tori :=
  Tori.maintain_scroll <| Tori.move_cursor_x_to_desired <|
    { t with buffer := { t.buffer with
        cursor_y := min (wadd t.buffer.cursor_y 1)
          (wsub t.buffer.line_count 1) } }

/-- Model of `Tori::dispatch` (lines 214-259).  The recursive calls
`self.dispatch(Move(Up))` in the Left-wrap branch and
`self.dispatch(Move(Down))` in the Right-wrap branch are the
`moveUp`/`moveDown` transitions above. -/
def Tori.dispatch (t : Tori) (e : ToriEvent) : Tori :=
  match e with
  | .Quit => { t with should_quit := true }
  | .Move .Up => t.moveUp
  | .Move .Down => t.moveDown
  | .Move .Left =>
    let t1 :=
      if t.buffer.cursor_x = 0 then
        -- Wrap: move up, then to the end of the now-current line.
        let tu := t.moveUp
        { tu with buffer := { tu.buffer with
            cursor_x := tu.buffer.line_width tu.buffer.cursor_y } }
      else
        { t with buffer := { t.buffer with
            cursor_x := max t.buffer.cursor_x 1 - 1 } }
    let t2 := { t1 with buffer := { t1.buffer with
        desired_cursor_x := t1.buffer.cursor_x } }
    t2.maintain_scroll
  | .Move .Right =>
    let cx := t.buffer.cursor_x
    let lw := t.buffer.line_width t.buffer.cursor_y
    let t1 :=
      if lw ≤ cx then
        -- Wrap: move to start of line and down.
        Tori.moveDown { t with buffer := { t.buffer with
            scroll_x := 0, cursor_x := 0, desired_cursor_x := 0 } }
      else
        { t with buffer := { t.buffer with
            cursor_x := min (wadd cx 1) lw,
            desired_cursor_x := min (wadd cx 1) lw } }
    t1.maintain_scroll

/-- Folding a list of events through `dispatch` (the event loop of
`Tori::run`, with the input collaborator supplying the events). -/
def applyEvents (t : Tori) (es : List ToriEvent) : Tori :=
  es.foldl Tori.dispatch t

/-- The cursor placement arithmetic of `Tori::draw` (lines 316-320):
screen column `cursor_x + line_number_width + 1 - scroll_x` and screen
row `cursor_y - scroll_y`, all in `u16`, where `line_number_width` is
`max_line_length()`. -/
def Tori.draw_cursor (t : Tori) : Nat × Nat :=
  (wsub (wadd (wadd t.buffer.cursor_x t.buffer.max_line_length) 1)
     t.buffer.scroll_x,
   wsub t.buffer.cursor_y t.buffer.scroll_y)

/-! ### Shared concrete states for witnesses and counterexamples -/

/-- A 3-line demo buffer with line lengths 10, 0 and 5 (the file of
the concrete scenario in the spec). -/
def demoBuffer : FileBuffer :=
  read_from_path ("demo.txt") ["aaaaaaaaaa", "", "aaaaa"]

/-- The editor opened on `demoBuffer` in an 80x24 terminal. -/
def demoTori : Tori := Tori.new demoBuffer 80 24

/-- A single-line buffer whose line 0 is `"ab"`, cursor and scroll at
the origin, in an 80x24 terminal. -/
def cornerTori : Tori :=
  Tori.new (read_from_path ("corner.txt") ["ab"]) 80 24

/-- A buffer whose line 0 is empty, cursor and scroll at the origin,
in an 80x24 terminal. -/
def originTori : Tori :=
  Tori.new (read_from_path ("origin.txt") ["", "x"]) 80 24

/-- The editor opened on a file with no lines (an empty file read by
`BufRead::lines` yields zero lines). -/
def emptyTori : Tori :=
  Tori.new (read_from_path ("empty.txt") []) 80 24

/-- A line of 65535 characters: the widest line whose length still
fits in `u16`. -/
def wideLine : String := String.mk (List.replicate 65535 'x')

/-- A state whose cursor sits at the end of a 65535-character line
(cursor invariant satisfied), used against the draw-cursor formula. -/
def overflowTori : Tori :=
  { Tori.new (read_from_path ("wide.txt") [wideLine]) 80 24 with
    buffer := { read_from_path ("wide.txt") [wideLine] with
      cursor_x := 65535, desired_cursor_x := 65535 } }

/-- A line of 65536 characters: one more than fits in `u16`. -/
def longLine : String := String.mk (List.replicate 65536 'a')

/-- A buffer holding only `longLine`. -/
def overlongBuffer : FileBuffer := read_from_path ("overlong.txt") [longLine]

/-- A buffer whose single line is one non-ASCII character: 1
character, 2 UTF-8 bytes. -/
def accentBuffer : FileBuffer := read_from_path ("accent.txt") ["é"]

/-- A 5-line file in a terminal with `screen_rows = 10` and
`screen_columns = 41` (both at least the lookahead margin 6). -/
def smallTori : Tori :=
  Tori.new (read_from_path ("small.txt") (List.replicate 5 "")) 43 11

/-- State `smallTori` after four `Move(Down)` events. -/
def c3State : Tori := applyEvents smallTori (List.replicate 4 (.Move .Down))

/-- A 30-line file in a terminal with `screen_rows = 7` and
`screen_columns = 47` (both at least the lookahead margin 6). -/
def tallTori : Tori :=
  Tori.new (read_from_path ("tall.txt") (List.replicate 30 "")) 50 8

/-- State `tallTori` after five `Move(Down)` events and one `Move(Up)`:
the cursor is on line 4 while `scroll_y = 4`. -/
def c2State : Tori :=
  applyEvents tallTori (List.replicate 5 (.Move .Down) ++ [.Move .Up])

/-! ### Arithmetic lemmas for the wrapping operations -/

theorem wadd_eq_add {a b : Nat} (h : a + b < W) : wadd a b = a + b := by
  unfold wadd W at *; omega

theorem wsub_eq_sub {a b : Nat} (hba : b ≤ a) (ha : a < W) : wsub a b = a - b := by
  unfold wsub W at *; omega

/-! ### Basic lemmas about the accessors -/

theorem line_count_le (b : FileBuffer) : b.line_count ≤ 65535 :=
  min_le_right _ _

theorem line_width_le (b : FileBuffer) (i : Nat) : b.line_width i ≤ 65535 := by
  unfold FileBuffer.line_width
  dsimp only
  split <;> omega

theorem line_width_congr {b1 b2 : FileBuffer} (h : b1.content = b2.content)
    (i : Nat) : b1.line_width i = b2.line_width i := by
  unfold FileBuffer.line_width
  rw [h]

theorem line_count_congr {b1 b2 : FileBuffer} (h : b1.content = b2.content) :
    b1.line_count = b2.line_count := by
  unfold FileBuffer.line_count
  rw [h]

/-! ### Frame lemmas: which fields each transition can touch -/

theorem maintain_scroll_frame (t : Tori) :
    (t.maintain_scroll).buffer.cursor_x = t.buffer.cursor_x ∧
    (t.maintain_scroll).buffer.cursor_y = t.buffer.cursor_y ∧
    (t.maintain_scroll).buffer.desired_cursor_x = t.buffer.desired_cursor_x ∧
    (t.maintain_scroll).buffer.content = t.buffer.content ∧
    (t.maintain_scroll).buffer.path = t.buffer.path ∧
    (t.maintain_scroll).buffer.is_modified = t.buffer.is_modified ∧
    (t.maintain_scroll).should_quit = t.should_quit ∧
    (t.maintain_scroll).config = t.config ∧
    (t.maintain_scroll).columns = t.columns ∧
    (t.maintain_scroll).rows = t.rows ∧
    (t.maintain_scroll).screen_rows = t.screen_rows ∧
    (t.maintain_scroll).screen_columns = t.screen_columns := by
  unfold Tori.maintain_scroll
  dsimp only
  split_ifs <;> simp_all

theorem move_cursor_x_to_desired_frame (t : Tori) :
    (t.move_cursor_x_to_desired).buffer.cursor_y = t.buffer.cursor_y ∧
    (t.move_cursor_x_to_desired).buffer.desired_cursor_x = t.buffer.desired_cursor_x ∧
    (t.move_cursor_x_to_desired).buffer.content = t.buffer.content ∧
    (t.move_cursor_x_to_desired).buffer.path = t.buffer.path ∧
    (t.move_cursor_x_to_desired).buffer.is_modified = t.buffer.is_modified ∧
    (t.move_cursor_x_to_desired).buffer.scroll_x = t.buffer.scroll_x ∧
    (t.move_cursor_x_to_desired).buffer.scroll_y = t.buffer.scroll_y ∧
    (t.move_cursor_x_to_desired).should_quit = t.should_quit ∧
    (t.move_cursor_x_to_desired).config = t.config ∧
    (t.move_cursor_x_to_desired).columns = t.columns ∧
    (t.move_cursor_x_to_desired).rows = t.rows ∧
    (t.move_cursor_x_to_desired).screen_rows = t.screen_rows ∧
    (t.move_cursor_x_to_desired).screen_columns = t.screen_columns := by
  unfold Tori.move_cursor_x_to_desired
  simp

/-! ### Characterization of the vertical moves -/

theorem moveUp_spec (t : Tori) :
    (t.moveUp).buffer.cursor_y = max t.buffer.cursor_y 1 - 1 ∧
    (t.moveUp).buffer.cursor_x =
      min t.buffer.desired_cursor_x
        (t.buffer.line_width (max t.buffer.cursor_y 1 - 1)) ∧
    (t.moveUp).buffer.desired_cursor_x = t.buffer.desired_cursor_x ∧
    (t.moveUp).buffer.content = t.buffer.content ∧
    (t.moveUp).config = t.config ∧
    (t.moveUp).screen_rows = t.screen_rows ∧
    (t.moveUp).screen_columns = t.screen_columns := by
  unfold Tori.moveUp
  refine ⟨?_, ?_, ?_, ?_, ?_, ?_, ?_⟩ <;>
    simp [maintain_scroll_frame, move_cursor_x_to_desired_frame,
      Tori.move_cursor_x_to_desired, FileBuffer.line_width]

theorem moveDown_spec (t : Tori) :
    (t.moveDown).buffer.cursor_y =
      min (wadd t.buffer.cursor_y 1) (wsub t.buffer.line_count 1) ∧
    (t.moveDown).buffer.cursor_x =
      min t.buffer.desired_cursor_x
        (t.buffer.line_width
          (min (wadd t.buffer.cursor_y 1) (wsub t.buffer.line_count 1))) ∧
    (t.moveDown).buffer.desired_cursor_x = t.buffer.desired_cursor_x ∧
    (t.moveDown).buffer.content = t.buffer.content ∧
    (t.moveDown).config = t.config ∧
    (t.moveDown).screen_rows = t.screen_rows ∧
    (t.moveDown).screen_columns = t.screen_columns := by
  unfold Tori.moveDown
  refine ⟨?_, ?_, ?_, ?_, ?_, ?_, ?_⟩ <;>
    simp [maintain_scroll_frame, move_cursor_x_to_desired_frame,
      Tori.move_cursor_x_to_desired, FileBuffer.line_width]

/-! ### Unfolding lemmas for `dispatch` -/

theorem dispatch_quit (t : Tori) :
    t.dispatch .Quit = { t with should_quit := true } := rfl

theorem dispatch_up (t : Tori) : t.dispatch (.Move .Up) = t.moveUp := rfl

theorem dispatch_down (t : Tori) : t.dispatch (.Move .Down) = t.moveDown := rfl

theorem dispatch_left_wrap (t : Tori) (h : t.buffer.cursor_x = 0) :
    t.dispatch (.Move .Left) =
      Tori.maintain_scroll
        { t.moveUp with buffer := { (t.moveUp).buffer with
            cursor_x := (t.moveUp).buffer.line_width (t.moveUp).buffer.cursor_y,
            desired_cursor_x :=
              (t.moveUp).buffer.line_width (t.moveUp).buffer.cursor_y } } := by
  simp only [Tori.dispatch]
  rw [if_pos h]

theorem dispatch_left_no_wrap (t : Tori) (h : ¬ t.buffer.cursor_x = 0) :
    t.dispatch (.Move .Left) =
      Tori.maintain_scroll
        { t with buffer := { t.buffer with
            cursor_x := max t.buffer.cursor_x 1 - 1,
            desired_cursor_x := max t.buffer.cursor_x 1 - 1 } } := by
  simp only [Tori.dispatch]
  rw [if_neg h]

theorem dispatch_right_wrap (t : Tori)
    (h : t.buffer.line_width t.buffer.cursor_y ≤ t.buffer.cursor_x) :
    t.dispatch (.Move .Right) =
      Tori.maintain_scroll (Tori.moveDown { t with buffer := { t.buffer with
        scroll_x := 0, cursor_x := 0, desired_cursor_x := 0 } }) := by
  simp only [Tori.dispatch]
  rw [if_pos h]

theorem dispatch_right_no_wrap (t : Tori)
    (h : ¬ t.buffer.line_width t.buffer.cursor_y ≤ t.buffer.cursor_x) :
    t.dispatch (.Move .Right) =
      Tori.maintain_scroll { t with buffer := { t.buffer with
        cursor_x := min (wadd t.buffer.cursor_x 1)
          (t.buffer.line_width t.buffer.cursor_y),
        desired_cursor_x := min (wadd t.buffer.cursor_x 1)
          (t.buffer.line_width t.buffer.cursor_y) } } := by
  simp only [Tori.dispatch]
  rw [if_neg h]

/-! ### Pointwise projection lemmas, convenient for `simp` -/

theorem ms_cx (s : Tori) :
    (s.maintain_scroll).buffer.cursor_x = s.buffer.cursor_x :=
  (maintain_scroll_frame s).1

theorem ms_cy (s : Tori) :
    (s.maintain_scroll).buffer.cursor_y = s.buffer.cursor_y :=
  (maintain_scroll_frame s).2.1

theorem ms_des (s : Tori) :
    (s.maintain_scroll).buffer.desired_cursor_x = s.buffer.desired_cursor_x :=
  (maintain_scroll_frame s).2.2.1

theorem ms_cont (s : Tori) :
    (s.maintain_scroll).buffer.content = s.buffer.content :=
  (maintain_scroll_frame s).2.2.2.1

theorem ms_line_count (s : Tori) :
    (s.maintain_scroll).buffer.line_count = s.buffer.line_count :=
  line_count_congr (ms_cont s)

theorem ms_line_width (s : Tori) (i : Nat) :
    (s.maintain_scroll).buffer.line_width i = s.buffer.line_width i :=
  line_width_congr (ms_cont s) i

theorem ms_screen_columns (s : Tori) :
    (s.maintain_scroll).screen_columns = s.screen_columns :=
  (maintain_scroll_frame s).2.2.2.2.2.2.2.2.2.2.2

theorem mu_line_count (s : Tori) :
    (s.moveUp).buffer.line_count = s.buffer.line_count :=
  line_count_congr (moveUp_spec s).2.2.2.1

theorem mu_line_width (s : Tori) (i : Nat) :
    (s.moveUp).buffer.line_width i = s.buffer.line_width i :=
  line_width_congr (moveUp_spec s).2.2.2.1 i

theorem md_line_count (s : Tori) :
    (s.moveDown).buffer.line_count = s.buffer.line_count :=
  line_count_congr (moveDown_spec s).2.2.2.1

theorem md_line_width (s : Tori) (i : Nat) :
    (s.moveDown).buffer.line_width i = s.buffer.line_width i :=
  line_width_congr (moveDown_spec s).2.2.2.1 i

/-- Claim C1: for every buffer state with `cursor_y < line_count` and
`cursor_x ≤ line_width(cursor_y)`, dispatching any single
`Move(direction)` re-establishes `cursor_y < line_count` and
`cursor_x ≤ line_width(cursor_y)`. -/
theorem C1_move_preserves_cursor_invariant (t : Tori) (d : Direction)
    (hy : t.buffer.cursor_y < t.buffer.line_count)
    (hx : t.buffer.cursor_x ≤ t.buffer.line_width t.buffer.cursor_y) :
    (t.dispatch (.Move d)).buffer.cursor_y
        < (t.dispatch (.Move d)).buffer.line_count ∧
    (t.dispatch (.Move d)).buffer.cursor_x
        ≤ (t.dispatch (.Move d)).buffer.line_width
            (t.dispatch (.Move d)).buffer.cursor_y := by
  have hlc65535 := line_count_le t.buffer
  cases d with
  | Up =>
    obtain ⟨hcy, hcx, _, hcont, _⟩ := moveUp_spec t
    rw [dispatch_up, line_count_congr hcont, line_width_congr hcont, hcy, hcx]
    exact ⟨by omega, min_le_right _ _⟩
  | Down =>
    obtain ⟨hcy, hcx, _, hcont, _⟩ := moveDown_spec t
    rw [dispatch_down, line_count_congr hcont, line_width_congr hcont, hcy, hcx]
    have h1 : wadd t.buffer.cursor_y 1 = t.buffer.cursor_y + 1 :=
      wadd_eq_add (by unfold W; omega)
    have h2 : wsub t.buffer.line_count 1 = t.buffer.line_count - 1 :=
      wsub_eq_sub (by omega) (by unfold W; omega)
    rw [h1, h2]
    exact ⟨by omega, min_le_right _ _⟩
  | Left =>
    by_cases h : t.buffer.cursor_x = 0
    · rw [dispatch_left_wrap t h]
      simp only [ms_cy, ms_cx, ms_line_count, ms_line_width]
      simp only [FileBuffer.line_count, FileBuffer.line_width]
      simp only [(moveUp_spec t).1, (moveUp_spec t).2.2.2.1]
      constructor
      · have := line_count_le t.buffer
        simp only [FileBuffer.line_count] at hy this ⊢
        omega
      · exact le_refl _
    · rw [dispatch_left_no_wrap t h]
      simp only [ms_cy, ms_cx, ms_line_count, ms_line_width]
      simp only [FileBuffer.line_count, FileBuffer.line_width]
      simp only [FileBuffer.line_count, FileBuffer.line_width] at hy hx
      constructor
      · exact hy
      · omega
  | Right =>
    by_cases h : t.buffer.line_width t.buffer.cursor_y ≤ t.buffer.cursor_x
    · rw [dispatch_right_wrap t h]
      simp only [ms_cy, ms_cx, ms_line_count, ms_line_width,
        md_line_count, md_line_width]
      obtain ⟨hcy, hcx, _⟩ := moveDown_spec
        { t with buffer := { t.buffer with
            scroll_x := 0, cursor_x := 0, desired_cursor_x := 0 } }
      rw [hcy, hcx]
      simp only [FileBuffer.line_count, FileBuffer.line_width]
      simp only [FileBuffer.line_count, FileBuffer.line_width] at hy hlc65535
      constructor
      · have h1 : wadd t.buffer.cursor_y 1 = t.buffer.cursor_y + 1 :=
          wadd_eq_add (by unfold W; omega)
        have h2 : wsub (min t.buffer.content.length 65535) 1
            = min t.buffer.content.length 65535 - 1 :=
          wsub_eq_sub (by omega) (by unfold W; omega)
        simp only [FileBuffer.line_count] at h2
        rw [h1, h2]
        omega
      · simp
    · rw [dispatch_right_no_wrap t h]
      simp only [ms_cy, ms_cx, ms_line_count, ms_line_width]
      refine ⟨?_, ?_⟩
      · simp only [FileBuffer.line_count]
        simp only [FileBuffer.line_count] at hy
        exact hy
      · simp only [FileBuffer.line_width]
        exact min_le_right _ _

/-- Witness for C1: the invariant hypotheses hold in the demo state
and are re-established after a `Move(Left)`. -/
theorem C1_witness :
    (demoTori.buffer.cursor_y < demoTori.buffer.line_count ∧
      demoTori.buffer.cursor_x
        ≤ demoTori.buffer.line_width demoTori.buffer.cursor_y) ∧
    ((demoTori.dispatch (.Move .Left)).buffer.cursor_y
        < (demoTori.dispatch (.Move .Left)).buffer.line_count ∧
      (demoTori.dispatch (.Move .Left)).buffer.cursor_x
        ≤ (demoTori.dispatch (.Move .Left)).buffer.line_width
            (demoTori.dispatch (.Move .Left)).buffer.cursor_y) :=
  ⟨⟨by decide, by decide⟩,
    C1_move_preserves_cursor_invariant demoTori .Left (by decide) (by decide)⟩

theorem ms_path (s : Tori) :
    (s.maintain_scroll).buffer.path = s.buffer.path :=
  (maintain_scroll_frame s).2.2.2.2.1

theorem ms_ismod (s : Tori) :
    (s.maintain_scroll).buffer.is_modified = s.buffer.is_modified :=
  (maintain_scroll_frame s).2.2.2.2.2.1

theorem ms_quitflag (s : Tori) :
    (s.maintain_scroll).should_quit = s.should_quit :=
  (maintain_scroll_frame s).2.2.2.2.2.2.1

theorem ms_config (s : Tori) :
    (s.maintain_scroll).config = s.config :=
  (maintain_scroll_frame s).2.2.2.2.2.2.2.1

theorem ms_columns (s : Tori) :
    (s.maintain_scroll).columns = s.columns :=
  (maintain_scroll_frame s).2.2.2.2.2.2.2.2.1

theorem ms_rows (s : Tori) :
    (s.maintain_scroll).rows = s.rows :=
  (maintain_scroll_frame s).2.2.2.2.2.2.2.2.2.1

theorem ms_screen_rows (s : Tori) :
    (s.maintain_scroll).screen_rows = s.screen_rows :=
  (maintain_scroll_frame s).2.2.2.2.2.2.2.2.2.2.1

/-- Full frame for the vertical moves: everything except the cursor
and scroll offsets is preserved. -/
theorem moveUp_frame (t : Tori) :
    (t.moveUp).buffer.content = t.buffer.content ∧
    (t.moveUp).buffer.path = t.buffer.path ∧
    (t.moveUp).buffer.is_modified = t.buffer.is_modified ∧
    (t.moveUp).should_quit = t.should_quit ∧
    (t.moveUp).config = t.config ∧
    (t.moveUp).columns = t.columns ∧
    (t.moveUp).rows = t.rows ∧
    (t.moveUp).screen_rows = t.screen_rows ∧
    (t.moveUp).screen_columns = t.screen_columns := by
  unfold Tori.moveUp
  simp [ms_cont, ms_path, ms_ismod, ms_quitflag, ms_config, ms_columns,
    ms_rows, ms_screen_rows, ms_screen_columns, Tori.move_cursor_x_to_desired]

theorem moveDown_frame (t : Tori) :
    (t.moveDown).buffer.content = t.buffer.content ∧
    (t.moveDown).buffer.path = t.buffer.path ∧
    (t.moveDown).buffer.is_modified = t.buffer.is_modified ∧
    (t.moveDown).should_quit = t.should_quit ∧
    (t.moveDown).config = t.config ∧
    (t.moveDown).columns = t.columns ∧
    (t.moveDown).rows = t.rows ∧
    (t.moveDown).screen_rows = t.screen_rows ∧
    (t.moveDown).screen_columns = t.screen_columns := by
  unfold Tori.moveDown
  simp [ms_cont, ms_path, ms_ismod, ms_quitflag, ms_config, ms_columns,
    ms_rows, ms_screen_rows, ms_screen_columns, Tori.move_cursor_x_to_desired]

/-- Claim C9: for every state and every dispatched event (`Quit` or
any `Move`), the buffer fields `content`, `path` and `is_modified` are
unchanged, and so are the configuration and geometry fields; only the
cursor offsets, the scroll offsets and `should_quit` may change. -/
theorem C9_dispatch_frame (t : Tori) (e : ToriEvent) :
    (t.dispatch e).buffer.content = t.buffer.content ∧
    (t.dispatch e).buffer.path = t.buffer.path ∧
    (t.dispatch e).buffer.is_modified = t.buffer.is_modified ∧
    (t.dispatch e).config = t.config ∧
    (t.dispatch e).columns = t.columns ∧
    (t.dispatch e).rows = t.rows ∧
    (t.dispatch e).screen_rows = t.screen_rows ∧
    (t.dispatch e).screen_columns = t.screen_columns := by
  cases e with
  | Quit => rw [dispatch_quit]; exact ⟨rfl, rfl, rfl, rfl, rfl, rfl, rfl, rfl⟩
  | Move d =>
    cases d with
    | Up =>
      rw [dispatch_up]
      obtain ⟨h1, h2, h3, h4, h5, h6, h7, h8, h9⟩ := moveUp_frame t
      exact ⟨h1, h2, h3, h5, h6, h7, h8, h9⟩
    | Down =>
      rw [dispatch_down]
      obtain ⟨h1, h2, h3, h4, h5, h6, h7, h8, h9⟩ := moveDown_frame t
      exact ⟨h1, h2, h3, h5, h6, h7, h8, h9⟩
    | Left =>
      by_cases h : t.buffer.cursor_x = 0
      · rw [dispatch_left_wrap t h]
        obtain ⟨h1, h2, h3, h4, h5, h6, h7, h8, h9⟩ := moveUp_frame t
        refine ⟨?_, ?_, ?_, ?_, ?_, ?_, ?_, ?_⟩ <;>
          simp [ms_cont, ms_path, ms_ismod, ms_config, ms_columns, ms_rows,
            ms_screen_rows, ms_screen_columns, h1, h2, h3, h5, h6, h7, h8, h9]
      · rw [dispatch_left_no_wrap t h]
        refine ⟨?_, ?_, ?_, ?_, ?_, ?_, ?_, ?_⟩ <;>
          simp [ms_cont, ms_path, ms_ismod, ms_config, ms_columns, ms_rows,
            ms_screen_rows, ms_screen_columns]
    | Right =>
      by_cases h : t.buffer.line_width t.buffer.cursor_y ≤ t.buffer.cursor_x
      · rw [dispatch_right_wrap t h]
        obtain ⟨h1, h2, h3, h4, h5, h6, h7, h8, h9⟩ := moveDown_frame
          { t with buffer := { t.buffer with
              scroll_x := 0, cursor_x := 0, desired_cursor_x := 0 } }
        refine ⟨?_, ?_, ?_, ?_, ?_, ?_, ?_, ?_⟩ <;>
          simp_all [ms_cont, ms_path, ms_ismod, ms_config, ms_columns,
            ms_rows, ms_screen_rows, ms_screen_columns]
      · rw [dispatch_right_no_wrap t h]
        refine ⟨?_, ?_, ?_, ?_, ?_, ?_, ?_, ?_⟩ <;>
          simp [ms_cont, ms_path, ms_ismod, ms_config, ms_columns, ms_rows,
            ms_screen_rows, ms_screen_columns]

/-- Claim C2 is violated by the code (`Tori::maintain_scroll`, line
196): the `u16` subtraction `cy - lookahead` does not behave as a
saturating subtraction.  In the reachable state `c2State` (reached
from a fresh 30-line buffer by five `Down` moves and one `Up` move)
the cursor is on line 4 with `scroll_y = 4` and `lookahead = 6`:
`max(cy - lookahead, 0) = 0 < scroll_y`, so under the claimed
saturating semantics scroll-up would fire and set `scroll_y = 0`, but
the wrapped `u16` value of `cy - lookahead` is 65534, the comparison
`65534 < 4` is false, and `maintain_scroll` leaves `scroll_y = 4`
(in a debug build the subtraction itself panics instead). -/
theorem C2_scroll_up_subtraction_underflows :
    c2State.buffer.cursor_y = 4 ∧
    c2State.buffer.scroll_y = 4 ∧
    c2State.buffer.cursor_y < c2State.config.lookahead ∧
    wsub c2State.buffer.cursor_y c2State.config.lookahead = 65534 ∧
    max (c2State.buffer.cursor_y - c2State.config.lookahead) 0
      < c2State.buffer.scroll_y ∧
    (c2State.maintain_scroll).buffer.scroll_y = 4 ∧
    (c2State.maintain_scroll).buffer.scroll_y
      ≠ max (c2State.buffer.cursor_y - c2State.config.lookahead) 0 := by
  set_option maxRecDepth 100000 in decide

/-- Claim C3 is violated by the code: in `c3State` (a 5-line file,
`screen_rows = 10` and `screen_columns = 41`, both at least the
lookahead margin 6, after four `Down` moves from the initial state)
the scroll-down branch of `maintain_scroll` computes
`min(cy + lookahead, line_count - 1) - screen_rows = 4 - 10` in `u16`,
which wraps to 65530, so `scroll_y ≤ cursor_y` fails after scroll
maintenance. -/
theorem C3_scroll_containment_violated :
    smallTori.config.lookahead ≤ smallTori.screen_rows ∧
    smallTori.config.lookahead ≤ smallTori.screen_columns ∧
    c3State.buffer.cursor_y = 4 ∧
    c3State.buffer.scroll_y = 65530 ∧
    ¬ c3State.buffer.scroll_y ≤ c3State.buffer.cursor_y := by
  set_option maxRecDepth 100000 in decide

/-- Claim C10: under the precondition `line_count ≥ 1` the three
unsigned subtractions performed by the `Move` branches of `dispatch`
stay in range: `line_count() - 1` (Down) equals the exact `Nat`
subtraction, and the minuends `cursor_y.max(1)` (Up) and
`cursor_x.max(1)` (Left) are at least the subtrahend 1.  The
precondition is genuine: a buffer read from an empty file has
`line_count() = 0`, and dispatching `Move(Down)` on it wraps
`0 - 1` to 65535 so that the clamp `min(cursor_y + 1, 65535)` moves
the cursor to line 1 of a 0-line buffer. -/
theorem C10_move_subtractions_in_range (t : Tori)
    (h : 1 ≤ t.buffer.line_count) :
    wsub t.buffer.line_count 1 = t.buffer.line_count - 1 ∧
    1 ≤ max t.buffer.cursor_y 1 ∧
    1 ≤ max t.buffer.cursor_x 1 ∧
    emptyTori.buffer.line_count = 0 ∧
    wsub emptyTori.buffer.line_count 1 = 65535 ∧
    (emptyTori.dispatch (.Move .Down)).buffer.cursor_y = 1 := by
  have hle := line_count_le t.buffer
  refine ⟨wsub_eq_sub h (by unfold W; omega),
    le_max_right _ _, le_max_right _ _, by decide, by decide, by decide⟩

/-- Witness for C10 at the demo state, whose `line_count` is 3. -/
theorem C10_witness :
    1 ≤ demoTori.buffer.line_count ∧
    wsub demoTori.buffer.line_count 1 = demoTori.buffer.line_count - 1 :=
  ⟨by decide, (C10_move_subtractions_in_range demoTori (by decide)).1⟩

/-- The character count of `longLine` (checked without evaluating the
list). -/
theorem longLine_length : longLine.length = 65536 :=
  List.length_replicate 65536 'a'

/-- UTF-8 byte size of a replicated character list, without evaluating
the list. -/
theorem utf8_go_replicate (n : Nat) (c : Char) :
    String.utf8ByteSize.go (List.replicate n c) = n * c.utf8Size := by
  induction n with
  | zero =>
    show (0 : Nat) = 0 * c.utf8Size
    omega
  | succ n ih =>
    rw [List.replicate_succ]
    show String.utf8ByteSize.go (List.replicate n c) + c.utf8Size = _
    rw [ih]
    ring

/-- The UTF-8 byte length of `longLine` (all bytes ASCII). -/
theorem longLine_bytes : longLine.utf8ByteSize = 65536 := by
  have h : Char.utf8Size 'a' = 1 := by decide
  show String.utf8ByteSize.go (List.replicate 65536 'a') = 65536
  rw [utf8_go_replicate, h]

/-- The UTF-8 byte length of `wideLine` (all bytes ASCII). -/
theorem wideLine_bytes : wideLine.utf8ByteSize = 65535 := by
  have h : Char.utf8Size 'x' = 1 := by decide
  show String.utf8ByteSize.go (List.replicate 65535 'x') = 65535
  rw [utf8_go_replicate, h]

/-- Value of `line_width` at an in-range index whose line's byte
length fits in `u16`. -/
theorem line_width_in_range {b : FileBuffer} {i : Nat} {s : String}
    (hs : b.content.get? i = some s) (hlen : s.utf8ByteSize ≤ 65535) :
    b.line_width i = s.utf8ByteSize := by
  unfold FileBuffer.line_width
  rw [hs]
  simp only [Option.map, Option.getD]
  rw [if_pos hlen]

/-- Value of `line_width` at an index whose line has more than
`u16::MAX` bytes. -/
theorem line_width_too_long {b : FileBuffer} {i : Nat} {s : String}
    (hs : b.content.get? i = some s) (hlen : 65535 < s.utf8ByteSize) :
    b.line_width i = 0 := by
  unfold FileBuffer.line_width
  rw [hs]
  simp only [Option.map, Option.getD]
  rw [if_neg (by omega)]

/-- Value of `line_width` at an out-of-range index. -/
theorem line_width_out_of_range {b : FileBuffer} {i : Nat}
    (h : b.content.length ≤ i) : b.line_width i = 0 := by
  unfold FileBuffer.line_width
  rw [List.get?_eq_none.mpr h]
  simp

/-- Counterexample to claim C7 as stated, in two ways.  First, on a
buffer whose single line holds 65536 (ASCII) characters,
`line_width(0)` returns 0, not the character length of the line:
`u16::try_from(65536)` fails and the outer `unwrap_or(0)` yields 0
rather than a saturated value.  Second, `line.len()` in Rust is the
UTF-8 byte count, not the character count: on a buffer whose single
line is the one-character string `"é"` (2 bytes), `line_width(0)`
returns 2, not the character length 1. -/
theorem C7_counterexample :
    (overlongBuffer.content.get? 0 = some longLine ∧
      longLine.length = 65536 ∧
      overlongBuffer.line_width 0 = 0 ∧
      overlongBuffer.line_width 0 ≠ longLine.length) ∧
    (accentBuffer.content.get? 0 = some ("é") ∧
      ("é" : String).length = 1 ∧
      accentBuffer.line_width 0 = 2 ∧
      accentBuffer.line_width 0 ≠ ("é" : String).length) := by
  have hget : overlongBuffer.content.get? 0 = some longLine := rfl
  have hlw : overlongBuffer.line_width 0 = 0 :=
    line_width_too_long hget (by rw [longLine_bytes]; omega)
  refine ⟨⟨hget, longLine_length, hlw, by rw [hlw, longLine_length]; omega⟩,
    by decide, by decide, by decide, by decide⟩

/-- Claim C7 (amended): the accessors are total and never fail;
`line_count()` is the number of lines saturated at
`u16::MAX = 65535`; `line_width(i)` returns the UTF-8 byte length of
line `i` (Rust `String::len`, equal to the character length only for
ASCII lines) whenever that byte length fits in `u16`, and returns 0
both for an out-of-range index and for a line of more than 65535
bytes (it does not saturate). -/
theorem C7_accessors_total (b : FileBuffer) (i : Nat) :
    b.line_count ≤ 65535 ∧
    (b.content.length ≤ 65535 → b.line_count = b.content.length) ∧
    (65535 ≤ b.content.length → b.line_count = 65535) ∧
    (b.content.length ≤ i → b.line_width i = 0) ∧
    (∀ s : String, b.content.get? i = some s → s.utf8ByteSize ≤ 65535 →
      b.line_width i = s.utf8ByteSize) ∧
    (∀ s : String, b.content.get? i = some s → 65535 < s.utf8ByteSize →
      b.line_width i = 0) := by
  refine ⟨line_count_le b, ?_, ?_, ?_, ?_, ?_⟩
  · intro h; unfold FileBuffer.line_count; omega
  · intro h; unfold FileBuffer.line_count; omega
  · exact line_width_out_of_range
  · exact fun s hs hlen => line_width_in_range hs hlen
  · exact fun s hs hlen => line_width_too_long hs hlen

/-- Witness for C7 on the demo buffer: line 0 is in range with byte
length 10, index 3 is out of range. -/
theorem C7_witness :
    (demoBuffer.content.get? 0 = some ("aaaaaaaaaa") ∧
      ("aaaaaaaaaa" : String).utf8ByteSize ≤ 65535 ∧
      demoBuffer.line_width 0 = ("aaaaaaaaaa" : String).utf8ByteSize) ∧
    (demoBuffer.content.length ≤ 3 ∧ demoBuffer.line_width 3 = 0) :=
  ⟨⟨by decide, by decide,
      (C7_accessors_total demoBuffer 0).2.2.2.2.1 ("aaaaaaaaaa")
        (by decide) (by decide)⟩,
    ⟨by decide, (C7_accessors_total demoBuffer 3).2.2.2.1 (by decide)⟩⟩

/-- Counterexample to claim C8 as stated: with the cursor at the end
of a 65535-character line (so the cursor-clamping invariant and both
visibility invariants hold), the `u16` sum
`cursor_x + gutter_width + 1` wraps, and `draw` places the terminal
cursor at screen column 1 instead of the claimed
`cursor_x + gutter_width + 1 - scroll_x = 65537` (a value that cannot
even be represented; a debug build panics on the addition). -/
theorem C8_counterexample :
    overflowTori.buffer.scroll_x ≤ overflowTori.buffer.cursor_x ∧
    overflowTori.buffer.scroll_y ≤ overflowTori.buffer.cursor_y ∧
    overflowTori.buffer.cursor_x
      ≤ overflowTori.buffer.line_width overflowTori.buffer.cursor_y ∧
    overflowTori.draw_cursor.1
      ≠ overflowTori.buffer.cursor_x + overflowTori.buffer.max_line_length
          + 1 - overflowTori.buffer.scroll_x := by
  have hget : overflowTori.buffer.content.get? 0 = some wideLine := rfl
  have hlw0 : overflowTori.buffer.line_width 0 = wideLine.utf8ByteSize :=
    line_width_in_range hget (le_of_eq wideLine_bytes)
  have hlw : overflowTori.buffer.line_width 0 = 65535 :=
    hlw0.trans wideLine_bytes
  have hcy : overflowTori.buffer.cursor_y = 0 := rfl
  refine ⟨by set_option maxRecDepth 100000 in decide,
    by set_option maxRecDepth 100000 in decide, ?_,
    by set_option maxRecDepth 100000 in decide⟩
  rw [hcy, hlw]
  set_option maxRecDepth 100000 in decide

/-- Claim C8 (amended): for every state satisfying the visibility
invariants `scroll_x ≤ cursor_x` and `scroll_y ≤ cursor_y`, and in
which the sum `cursor_x + gutter_width + 1` does not overflow `u16`
(`gutter_width` being `max_line_length()`, the digit count of
`line_count`), the render pass positions the terminal cursor at
screen column `cursor_x + gutter_width + 1 - scroll_x` and screen row
`cursor_y - scroll_y`. -/
theorem C8_draw_cursor_position (t : Tori)
    (h1 : t.buffer.scroll_x ≤ t.buffer.cursor_x)
    (h2 : t.buffer.scroll_y ≤ t.buffer.cursor_y)
    (h3 : t.buffer.cursor_y < W)
    (h4 : t.buffer.cursor_x + t.buffer.max_line_length + 1 < W) :
    t.draw_cursor =
      (t.buffer.cursor_x + t.buffer.max_line_length + 1 - t.buffer.scroll_x,
       t.buffer.cursor_y - t.buffer.scroll_y) := by
  unfold Tori.draw_cursor
  simp only [Prod.mk.injEq]
  unfold wadd wsub W at *
  constructor <;> omega

/-- Witness for C8 at the demo state: the visibility invariants hold
and the cursor lands at column `0 + 1 + 1 - 0 = 2`, row `0`. -/
theorem C8_witness :
    (demoTori.buffer.scroll_x ≤ demoTori.buffer.cursor_x ∧
      demoTori.buffer.scroll_y ≤ demoTori.buffer.cursor_y ∧
      demoTori.buffer.cursor_y < W ∧
      demoTori.buffer.cursor_x + demoTori.buffer.max_line_length + 1 < W) ∧
    demoTori.draw_cursor =
      (demoTori.buffer.cursor_x + demoTori.buffer.max_line_length + 1
          - demoTori.buffer.scroll_x,
       demoTori.buffer.cursor_y - demoTori.buffer.scroll_y) :=
  ⟨⟨by decide, by decide, by decide, by decide⟩,
    C8_draw_cursor_position demoTori (by decide) (by decide)
      (by decide) (by decide)⟩

/-- Counterexample to claim C6 as stated: at the top-left corner of a
buffer whose first line is `"ab"`, `Move(Left)` does not leave the
state unchanged — the wrap branch runs `Up` (which saturates on line
0) and then moves the cursor to the end of line 0, so `cursor_x`
becomes 2. -/
theorem C6_counterexample :
    cornerTori.buffer.cursor_y = 0 ∧
    cornerTori.buffer.cursor_x = 0 ∧
    (cornerTori.dispatch (.Move .Left)).buffer.cursor_x = 2 ∧
    cornerTori.dispatch (.Move .Left) ≠ cornerTori := by
  refine ⟨rfl, rfl, by decide, by decide⟩

/-- Lemma: `maintain_scroll` is the identity when none of its four branch
conditions fires. -/
theorem ms_noop (s : Tori)
    (h1 : ¬ wsub s.buffer.cursor_y s.config.lookahead < s.buffer.scroll_y)
    (h2 : ¬ wadd s.buffer.cursor_y s.config.lookahead
        ≥ wadd s.buffer.scroll_y s.screen_rows)
    (h3 : ¬ s.buffer.cursor_x < s.buffer.scroll_x)
    (h4 : ¬ s.buffer.cursor_x ≥ wadd s.buffer.scroll_x s.screen_columns) :
    s.maintain_scroll = s := by
  unfold Tori.maintain_scroll
  dsimp only
  rw [if_neg h1, if_neg h2, if_neg h3, if_neg h4]

/-- Writing back the current `cursor_y` is the identity. -/
theorem set_cursor_y_eq (t : Tori) (v : Nat) (h : v = t.buffer.cursor_y) :
    ({ t with buffer := { t.buffer with cursor_y := v } } : Tori) = t := by
  subst h; rfl

/-- Writing back the current `cursor_x` is the identity. -/
theorem set_cursor_x_eq (t : Tori) (v : Nat) (h : v = t.buffer.cursor_x) :
    ({ t with buffer := { t.buffer with cursor_x := v } } : Tori) = t := by
  subst h; rfl

/-- Writing back the current `cursor_x` and `desired_cursor_x` is the
identity. -/
theorem set_cursor_x_desired_eq (t : Tori) (v u : Nat)
    (h : v = t.buffer.cursor_x) (h2 : u = t.buffer.desired_cursor_x) :
    ({ t with buffer := { t.buffer with
        cursor_x := v, desired_cursor_x := u } } : Tori) = t := by
  subst h; subst h2; rfl

/-- Claim C6 (amended): `Move(Left)` at `(cursor_y = 0, cursor_x = 0)`
wraps onto the end of line 0, because the recursive `Up` saturates at
line 0: the cursor stays on line 0 and `cursor_x` and
`desired_cursor_x` both become `line_width(0)`.  The full state is
unchanged only in the special case where line 0 is empty,
`desired_cursor_x`, `scroll_x` and `scroll_y` are 0, and the screen is
large enough that no scroll branch fires
(`lookahead < screen_rows < 2^16` and `1 ≤ screen_columns < 2^16`). -/
theorem C6_left_at_top_left (t : Tori)
    (hy : t.buffer.cursor_y = 0) (hx : t.buffer.cursor_x = 0) :
    ((t.dispatch (.Move .Left)).buffer.cursor_y = 0 ∧
      (t.dispatch (.Move .Left)).buffer.cursor_x = t.buffer.line_width 0 ∧
      (t.dispatch (.Move .Left)).buffer.desired_cursor_x
        = t.buffer.line_width 0) ∧
    (t.buffer.line_width 0 = 0 → t.buffer.desired_cursor_x = 0 →
      t.buffer.scroll_x = 0 → t.buffer.scroll_y = 0 →
      t.config.lookahead < t.screen_rows → t.screen_rows < W →
      1 ≤ t.screen_columns → t.screen_columns < W →
      t.dispatch (.Move .Left) = t) := by
  constructor
  · rw [dispatch_left_wrap t hx]
    obtain ⟨hcy, _⟩ := moveUp_spec t
    rw [hy] at hcy
    norm_num at hcy
    refine ⟨?_, ?_, ?_⟩
    · rw [ms_cy]
      simpa using hcy
    · rw [ms_cx]
      simp [mu_line_width, hcy]
    · rw [ms_des]
      simp [mu_line_width, hcy]
  · intro hw hd hsx hsy hla hsr hsc1 hsc2
    have hnoop : t.maintain_scroll = t := by
      refine ms_noop t ?_ ?_ ?_ ?_
      · rw [hsy]; exact Nat.not_lt_zero _
      · rw [hy, hsy]; unfold wadd W at *; omega
      · rw [hx, hsx]; omega
      · rw [hx, hsx]; unfold wadd W at *; omega
    have hup : t.moveUp = t := by
      unfold Tori.moveUp
      rw [set_cursor_y_eq t _ (by omega)]
      rw [show t.move_cursor_x_to_desired = t from ?_]
      · exact hnoop
      · unfold Tori.move_cursor_x_to_desired
        exact set_cursor_x_eq t _ (by rw [hd, hx]; exact Nat.zero_min _)
    rw [dispatch_left_wrap t hx, hup]
    rw [set_cursor_x_desired_eq t _ _ ?_ ?_]
    · exact hnoop
    · rw [hy, hw, hx]
    · rw [hy, hw, hd]

/-- Witness for C6: at `originTori` (line 0 empty, everything zeroed,
screen large enough) `Move(Left)` really is the identity. -/
theorem C6_witness :
    (originTori.buffer.cursor_y = 0 ∧ originTori.buffer.cursor_x = 0) ∧
    originTori.dispatch (.Move .Left) = originTori :=
  ⟨⟨rfl, rfl⟩,
    (C6_left_at_top_left originTori rfl rfl).2 (by decide) rfl rfl rfl
      (by decide) (by decide) (by decide) (by decide)⟩

/-- Claim C4: vertical moves set
`cursor_x = min(desired_cursor_x, line_width(cursor_y))` and leave
`desired_cursor_x` unchanged; consequently, starting on a line with
`desired_cursor_x = cursor_x = c ≤ line_width` and a line below,
`Move(Down)` followed by `Move(Up)` returns to the original line and
restores `cursor_x = c`. -/
theorem C4_desired_column_restoration :
    (∀ s : Tori,
      ((s.dispatch (.Move .Up)).buffer.desired_cursor_x
          = s.buffer.desired_cursor_x ∧
        (s.dispatch (.Move .Up)).buffer.cursor_x
          = min s.buffer.desired_cursor_x
              (s.buffer.line_width (s.dispatch (.Move .Up)).buffer.cursor_y)) ∧
      ((s.dispatch (.Move .Down)).buffer.desired_cursor_x
          = s.buffer.desired_cursor_x ∧
        (s.dispatch (.Move .Down)).buffer.cursor_x
          = min s.buffer.desired_cursor_x
              (s.buffer.line_width (s.dispatch (.Move .Down)).buffer.cursor_y))) ∧
    (∀ t : Tori,
      t.buffer.desired_cursor_x = t.buffer.cursor_x →
      t.buffer.cursor_x ≤ t.buffer.line_width t.buffer.cursor_y →
      t.buffer.cursor_y + 1 < t.buffer.line_count →
      ((t.dispatch (.Move .Down)).dispatch (.Move .Up)).buffer.cursor_y
          = t.buffer.cursor_y ∧
      ((t.dispatch (.Move .Down)).dispatch (.Move .Up)).buffer.cursor_x
          = t.buffer.cursor_x) := by
  constructor
  · intro s
    constructor
    · rw [dispatch_up]
      obtain ⟨hcy, hcx, hdes, _⟩ := moveUp_spec s
      exact ⟨hdes, by rw [hcx, hcy]⟩
    · rw [dispatch_down]
      obtain ⟨hcy, hcx, hdes, _⟩ := moveDown_spec s
      exact ⟨hdes, by rw [hcx, hcy]⟩
  · intro t h1 h2 h3
    rw [dispatch_down, dispatch_up]
    have hlc65535 := line_count_le t.buffer
    obtain ⟨dcy, dcx, ddes, dcont, _⟩ := moveDown_spec t
    have hcy1 : (t.moveDown).buffer.cursor_y = t.buffer.cursor_y + 1 := by
      rw [dcy, wadd_eq_add (by unfold W; omega),
        wsub_eq_sub (by omega) (by unfold W; omega)]
      omega
    obtain ⟨ucy, ucx, _, ucont, _⟩ := moveUp_spec (t.moveDown)
    have hcy2 : ((t.moveDown).moveUp).buffer.cursor_y = t.buffer.cursor_y := by
      rw [ucy, hcy1]
      omega
    refine ⟨hcy2, ?_⟩
    rw [ucx, ddes, h1, hcy1]
    have harg : max (t.buffer.cursor_y + 1) 1 - 1 = t.buffer.cursor_y := by
      omega
    rw [line_width_congr dcont, harg]
    omega

/-- Witness for C4 at the demo state (line 0 has width 10, the cursor
and desired column are 0, and line 1 exists): Down then Up restores
the cursor to `(0, 0)`. -/
theorem C4_witness :
    (demoTori.buffer.desired_cursor_x = demoTori.buffer.cursor_x ∧
      demoTori.buffer.cursor_x
        ≤ demoTori.buffer.line_width demoTori.buffer.cursor_y ∧
      demoTori.buffer.cursor_y + 1 < demoTori.buffer.line_count) ∧
    (((demoTori.dispatch (.Move .Down)).dispatch (.Move .Up)).buffer.cursor_y
        = demoTori.buffer.cursor_y ∧
      ((demoTori.dispatch (.Move .Down)).dispatch (.Move .Up)).buffer.cursor_x
        = demoTori.buffer.cursor_x) :=
  ⟨⟨by decide, by decide, by decide⟩,
    C4_desired_column_restoration.2 demoTori (by decide) (by decide)
      (by decide)⟩

/-- Lemma: `maintain_scroll` keeps `scroll_x = 0` when the cursor is at
column 0 and the screen is at least one column wide. -/
theorem ms_scroll_x_zero (s : Tori) (hcx : s.buffer.cursor_x = 0)
    (hsx : s.buffer.scroll_x = 0) (h1 : 1 ≤ s.screen_columns)
    (h2 : s.screen_columns < W) :
    (s.maintain_scroll).buffer.scroll_x = 0 := by
  unfold Tori.maintain_scroll
  dsimp only
  split_ifs <;> first
    | (exfalso; unfold wadd W at *; omega)
    | simp_all

/-- After `k` `Move(Right)` events that all stay strictly inside the
current line, the cursor has advanced `k` columns on the same line,
`desired_cursor_x` tracks it, and content and geometry are
untouched. -/
theorem right_run (k : Nat) : ∀ t : Tori,
    t.buffer.desired_cursor_x = t.buffer.cursor_x →
    t.buffer.cursor_x + k ≤ t.buffer.line_width t.buffer.cursor_y →
    (applyEvents t (List.replicate k (.Move .Right))).buffer.cursor_y
        = t.buffer.cursor_y ∧
    (applyEvents t (List.replicate k (.Move .Right))).buffer.cursor_x
        = t.buffer.cursor_x + k ∧
    (applyEvents t (List.replicate k (.Move .Right))).buffer.desired_cursor_x
        = t.buffer.cursor_x + k ∧
    (applyEvents t (List.replicate k (.Move .Right))).buffer.content
        = t.buffer.content ∧
    (applyEvents t (List.replicate k (.Move .Right))).config = t.config ∧
    (applyEvents t (List.replicate k (.Move .Right))).screen_columns
        = t.screen_columns := by
  induction k with
  | zero =>
    intro t hd hk
    simp [applyEvents, hd]
  | succ k ih =>
    intro t hd hk
    have hnw : ¬ t.buffer.line_width t.buffer.cursor_y ≤ t.buffer.cursor_x := by
      omega
    have h65535 := line_width_le t.buffer t.buffer.cursor_y
    have hv : min (wadd t.buffer.cursor_x 1)
        (t.buffer.line_width t.buffer.cursor_y) = t.buffer.cursor_x + 1 := by
      rw [wadd_eq_add (by unfold W; omega)]
      omega
    have hstep : applyEvents t (List.replicate (k + 1) (.Move .Right))
        = applyEvents (t.dispatch (.Move .Right))
            (List.replicate k (.Move .Right)) := by
      rw [List.replicate_succ]
      rfl
    rw [hstep, dispatch_right_no_wrap t hnw]
    obtain ⟨f1, f2, f3, f4, f5, f6, f7, f8, f9, f10, f11, f12⟩ :=
      maintain_scroll_frame { t with buffer := { t.buffer with
        cursor_x := min (wadd t.buffer.cursor_x 1)
          (t.buffer.line_width t.buffer.cursor_y),
        desired_cursor_x := min (wadd t.buffer.cursor_x 1)
          (t.buffer.line_width t.buffer.cursor_y) } }
    set t1 := Tori.maintain_scroll { t with buffer := { t.buffer with
        cursor_x := min (wadd t.buffer.cursor_x 1)
          (t.buffer.line_width t.buffer.cursor_y),
        desired_cursor_x := min (wadd t.buffer.cursor_x 1)
          (t.buffer.line_width t.buffer.cursor_y) } } with ht1
    simp only [hv] at f1 f2 f3 f4
    have e1 : t1.buffer.cursor_x = t.buffer.cursor_x + 1 := by
      rw [f1]
    have e2 : t1.buffer.cursor_y = t.buffer.cursor_y := by
      rw [f2]
    have e3 : t1.buffer.desired_cursor_x = t.buffer.cursor_x + 1 := by
      rw [f3]
    have e4 : t1.buffer.content = t.buffer.content := by
      rw [f4]
    obtain ⟨g1, g2, g3, g4, g5, g6⟩ := ih t1 (e3.trans e1.symm)
      (by rw [e1, line_width_congr e4, e2]; omega)
    refine ⟨?_, ?_, ?_, ?_, ?_, ?_⟩
    · rw [g1, e2]
    · omega
    · omega
    · rw [g4, e4]
    · rw [g5, f8]
    · rw [g6, f12]

/-- After `moveDown` from a state with `desired_cursor_x = 0` and
`scroll_x = 0` (and a screen at least one column wide), the cursor is
at column 0 and `scroll_x` is still 0. -/
theorem moveDown_scroll_x_zero (s : Tori)
    (hdes : s.buffer.desired_cursor_x = 0)
    (hsx : s.buffer.scroll_x = 0)
    (h1 : 1 ≤ s.screen_columns) (h2 : s.screen_columns < W) :
    (s.moveDown).buffer.scroll_x = 0 ∧ (s.moveDown).buffer.cursor_x = 0 := by
  unfold Tori.moveDown
  constructor
  · apply ms_scroll_x_zero
    · simp [Tori.move_cursor_x_to_desired, hdes]
    · simp [Tori.move_cursor_x_to_desired, hsx]
    · simpa [Tori.move_cursor_x_to_desired] using h1
    · simpa [Tori.move_cursor_x_to_desired] using h2
  · rw [ms_cx]
    simp [Tori.move_cursor_x_to_desired, hdes]

/-- Claim C5: starting at column 0 of a line of width `w` (with
`desired_cursor_x = 0`, a line below, and a screen at least one
column wide), `w` `Move(Right)` events stay on the same line and put
the cursor at column `w` (no wrap, since `cursor_x` may equal the
width); one further `Move(Right)` wraps exactly to
`(cursor_y + 1, 0)` with `scroll_x = 0` and `desired_cursor_x = 0`.
The concrete [10, 0, 5] scenario is settled by `C5_witness`. -/
theorem C5_right_width_then_wrap (t : Tori) (w : Nat)
    (hw : t.buffer.line_width t.buffer.cursor_y = w)
    (hcx : t.buffer.cursor_x = 0)
    (hdes : t.buffer.desired_cursor_x = 0)
    (hnext : t.buffer.cursor_y + 1 < t.buffer.line_count)
    (hsc1 : 1 ≤ t.screen_columns) (hsc2 : t.screen_columns < W) :
    ((applyEvents t (List.replicate w (.Move .Right))).buffer.cursor_y
        = t.buffer.cursor_y ∧
      (applyEvents t (List.replicate w (.Move .Right))).buffer.cursor_x = w) ∧
    ((applyEvents t (List.replicate (w + 1) (.Move .Right))).buffer.cursor_y
        = t.buffer.cursor_y + 1 ∧
      (applyEvents t (List.replicate (w + 1) (.Move .Right))).buffer.cursor_x
        = 0 ∧
      (applyEvents t
          (List.replicate (w + 1) (.Move .Right))).buffer.desired_cursor_x
        = 0 ∧
      (applyEvents t (List.replicate (w + 1) (.Move .Right))).buffer.scroll_x
        = 0) := by
  have hd0 : t.buffer.desired_cursor_x = t.buffer.cursor_x := by
    rw [hdes, hcx]
  obtain ⟨g1, g2, g3, g4, g5, g6⟩ :=
    right_run w t hd0 (by rw [hw]; omega)
  set tw := applyEvents t (List.replicate w (.Move .Right)) with htw
  have hsplit : applyEvents t (List.replicate (w + 1) (.Move .Right))
      = tw.dispatch (.Move .Right) := by
    rw [htw]
    rw [List.replicate_succ']
    show (List.replicate w (ToriEvent.Move .Right)
        ++ [ToriEvent.Move .Right]).foldl Tori.dispatch t = _
    rw [List.foldl_append]
    rfl
  have hwrap : tw.buffer.line_width tw.buffer.cursor_y ≤ tw.buffer.cursor_x := by
    rw [line_width_congr g4, g1, g2, hcx, hw]
    omega
  rw [hsplit, dispatch_right_wrap tw hwrap]
  set t2 : Tori := { tw with buffer := { tw.buffer with
      scroll_x := 0, cursor_x := 0, desired_cursor_x := 0 } } with ht2
  have t2cy : t2.buffer.cursor_y = t.buffer.cursor_y := g1
  have t2cont : t2.buffer.content = t.buffer.content := g4
  have t2des : t2.buffer.desired_cursor_x = 0 := rfl
  have t2sx : t2.buffer.scroll_x = 0 := rfl
  have t2sc : t2.screen_columns = t.screen_columns := g6
  have hlc65535 := line_count_le t.buffer
  obtain ⟨dcy, dcx, ddes, dcont, _, _, dscols⟩ := moveDown_spec t2
  have hcy2 : (t2.moveDown).buffer.cursor_y = t.buffer.cursor_y + 1 := by
    rw [dcy, t2cy, line_count_congr t2cont]
    rw [wadd_eq_add (by unfold W; omega),
      wsub_eq_sub (by omega) (by unfold W; omega)]
    omega
  obtain ⟨dsx, dcx0⟩ := moveDown_scroll_x_zero t2 t2des t2sx
    (by rw [t2sc]; exact hsc1) (by rw [t2sc]; exact hsc2)
  constructor
  · exact ⟨g1, by omega⟩
  refine ⟨?_, ?_, ?_, ?_⟩
  · rw [ms_cy, hcy2]
  · rw [ms_cx, dcx0]
  · rw [ms_des, ddes, t2des]
  · apply ms_scroll_x_zero _ dcx0 dsx
    · rw [dscols, t2sc]
      exact hsc1
    · rw [dscols, t2sc]
      exact hsc2

set_option maxRecDepth 1000000 in
/-- Witness for C5 at the concrete 3-line file with line lengths
[10, 0, 5] starting at (0,0): Right x10 gives (0,10) with no wrap, an
11th Right wraps to (1,0) with `scroll_x = 0`, and a following Down
lands at `(2, min(desired_cursor_x, 5))`. -/
theorem C5_witness :
    (demoTori.buffer.line_width demoTori.buffer.cursor_y = 10 ∧
      demoTori.buffer.cursor_x = 0 ∧
      demoTori.buffer.desired_cursor_x = 0 ∧
      demoTori.buffer.cursor_y + 1 < demoTori.buffer.line_count ∧
      1 ≤ demoTori.screen_columns ∧ demoTori.screen_columns < W) ∧
    (((applyEvents demoTori
          (List.replicate 10 (.Move .Right))).buffer.cursor_y
        = demoTori.buffer.cursor_y ∧
      (applyEvents demoTori
          (List.replicate 10 (.Move .Right))).buffer.cursor_x = 10) ∧
     ((applyEvents demoTori
          (List.replicate (10 + 1) (.Move .Right))).buffer.cursor_y
        = demoTori.buffer.cursor_y + 1 ∧
      (applyEvents demoTori
          (List.replicate (10 + 1) (.Move .Right))).buffer.cursor_x = 0 ∧
      (applyEvents demoTori
          (List.replicate (10 + 1) (.Move .Right))).buffer.desired_cursor_x
        = 0 ∧
      (applyEvents demoTori
          (List.replicate (10 + 1) (.Move .Right))).buffer.scroll_x = 0)) ∧
    ((applyEvents demoTori
        (List.replicate (10 + 1) (.Move .Right)
          ++ [.Move .Down])).buffer.cursor_y = 2 ∧
      (applyEvents demoTori
          (List.replicate (10 + 1) (.Move .Right)
            ++ [.Move .Down])).buffer.cursor_x
        = min (applyEvents demoTori
            (List.replicate (10 + 1) (.Move .Right))).buffer.desired_cursor_x
            5) :=
  ⟨⟨by decide, by decide, by decide, by decide, by decide, by decide⟩,
    C5_right_width_then_wrap demoTori 10 (by decide) (by decide) (by decide)
      (by decide) (by decide) (by decide),
    ⟨by decide, by decide⟩⟩
